import Mathlib

/-!
# GreenH2 — verification of the site-optimization frontend and pipeline

Shallow embedding of the GreenH2 repository:

* `FormData`, `handleSubmit`, `serializeFormData` — from `ControlPanel.tsx` and
  `App.tsx` (`handleRunOptimization` POSTs `JSON.stringify(formData)`).
* `mapViewMarkerPosition`, `mapMarkersRender`, `controlPanelSiteCount` — from
  `MapView.tsx`, `MapMarkers.tsx` and the results section of `ControlPanel.tsx`.
* `handleRunOptimization` — the state transition of `App.tsx` (loading / error /
  results) indexed by the outcome of the `fetch` call.
* `getMapSettings` — from `App.tsx`.
* The optimization pipeline (`passesFilters`, `rankCandidates`,
  `optimizePipeline`, …) is modelled from the specification and the repository
  README, because the FastAPI backend sources are not part of the embedded
  source tree; each such definition carries a `Modelled from the spec:` comment.

Numbers (JavaScript/Python floats) are embedded as `ℚ`.
-/

namespace GreenH2

/-- A JSON value, as produced by `JSON.stringify` on the form data. -/
inductive Json where
  | str (s : String)
  | num (q : ℚ)
  | bool (b : Bool)
deriving DecidableEq

/-- The `FormData` interface of `ControlPanel.tsx` / `App.tsx`:
`{ region: string; maxLcoh: number; minProduction: number; proximityToGrid: boolean }`. -/
structure FormData where
  region : String
  maxLcoh : ℚ
  minProduction : ℚ
  proximityToGrid : Bool
deriving DecidableEq

/-- The initial `useState` value of the form in `ControlPanel.tsx`:
`{ region: "", maxLcoh: 5.0, minProduction: 1000, proximityToGrid: true }`. -/
def initialFormData : FormData :=
  { region := "", maxLcoh := 5, minProduction := 1000, proximityToGrid := true }

/-- `JSON.stringify(formData)` in `handleRunOptimization` (`App.tsx`): the body is the
object with the four `FormData` properties, in declaration order. -/
def serializeFormData (fd : FormData) : List (String × Json) :=
  [("region", .str fd.region),
   ("maxLcoh", .num fd.maxLcoh),
   ("minProduction", .num fd.minProduction),
   ("proximityToGrid", .bool fd.proximityToGrid)]

/-- The field names of the external optimize request schema, as documented in the
spec (§6) and in the repository README ("Request Format"). -/
def requestSchemaKeys : List String :=
  ["region", "max_cost", "min_production", "proximity_to_grid"]

/-- The `value` attributes of the `<option>` elements of the region `<select>` in
`ControlPanel.tsx` (including the placeholder `""`). -/
def regionOptionValues : List String :=
  ["", "gujarat", "rajasthan", "maharashtra", "karnataka", "tamil_nadu",
   "andhra_pradesh", "india", "namibia", "chile", "australia"]

/-- The supported enumerated region set, from the repository README
("Invalid region: Use supported regions: gujarat, rajasthan, maharashtra,
karnataka, tamil_nadu, andhra_pradesh"). -/
def supportedRegions : List String :=
  ["gujarat", "rajasthan", "maharashtra", "karnataka", "tamil_nadu", "andhra_pradesh"]

/-- States of the control-panel form reachable through the React event handlers:
the initial state, `handleInputChange` on the region `<select>` (a browser select
only fires change events carrying one of its option values), and the handlers for
the other three inputs, which leave `region` unchanged. -/
inductive ReachableForm : FormData → Prop
  | init : ReachableForm initialFormData
  | setRegion (fd : FormData) (v : String) (hfd : ReachableForm fd)
      (hv : v ∈ regionOptionValues) : ReachableForm { fd with region := v }
  | setMaxLcoh (fd : FormData) (v : ℚ) (hfd : ReachableForm fd) :
      ReachableForm { fd with maxLcoh := v }
  | setMinProduction (fd : FormData) (v : ℚ) (hfd : ReachableForm fd) :
      ReachableForm { fd with minProduction := v }
  | setProximityToGrid (fd : FormData) (b : Bool) (hfd : ReachableForm fd) :
      ReachableForm { fd with proximityToGrid := b }

/-- `handleSubmit` in `ControlPanel.tsx`: `e.preventDefault()` and then
`onRunOptimization(formData)` — the form data is passed on unchanged, with no
validation of any field. -/
def handleSubmit (fd : FormData) : FormData := fd

/-- Properties of a response feature, following the response schema of the spec
(§6) and the README; the frontend interfaces declare subsets of these fields. -/
structure FeatureProperties where
  site_name : String
  lcoh : ℚ
  production_cost : ℚ
  transport_cost : ℚ
  rank : ℕ
  infrastructure_proximity_km : ℚ
  annual_production_tonnes : ℚ
  region : String
deriving DecidableEq

/-- A GeoJSON point geometry; `coordinates` is the two-element array, with `.1`
playing the role of `coordinates[0]` and `.2` of `coordinates[1]`. -/
structure Geometry where
  type : String
  coordinates : ℚ × ℚ
deriving DecidableEq

/-- A GeoJSON feature of the optimize response. -/
structure GeoJSONFeature where
  type : String
  geometry : Geometry
  properties : FeatureProperties
deriving DecidableEq

/-- The `optimization_criteria` object inside response metadata; `region` is
optional because `App.tsx` accesses it with optional chaining (`region?.`). -/
structure OptCriteria where
  region : Option String
deriving DecidableEq

/-- Response metadata, as read by `getMapSettings` in `App.tsx`. -/
structure Metadata where
  optimization_criteria : Option OptCriteria
deriving DecidableEq

/-- The GeoJSON feature collection returned by the optimize endpoint
(`interface GeoJSON` in `App.tsx`, with `metadata` optional). -/
structure GeoJSON where
  type : String
  features : List GeoJSONFeature
  metadata : Option Metadata
deriving DecidableEq

/-- `MapView.tsx`: the `Marker` position is
`[feature.geometry.coordinates[1], feature.geometry.coordinates[0]]`. -/
def mapViewMarkerPosition (f : GeoJSONFeature) : ℚ × ℚ :=
  (f.geometry.coordinates.2, f.geometry.coordinates.1)

/-- `MapMarkers.tsx` line 104: `position={[coordinates[1], coordinates[0]]}`
("Leaflet expects [lat, lng]"). -/
def mapMarkersPosition (f : GeoJSONFeature) : ℚ × ℚ :=
  (f.geometry.coordinates.2, f.geometry.coordinates.1)

/-- A rendered Leaflet marker (position plus the popup fields used by
`MapMarkers.tsx`). -/
structure Marker where
  position : ℚ × ℚ
  site_name : String
  rank : ℕ
  lcoh : ℚ
deriving DecidableEq

/-- `MapMarkers.tsx`: returns `null` (no markers) when `results` is null or the
feature list is empty, otherwise one marker per feature. -/
def mapMarkersRender (results : Option GeoJSON) : List Marker :=
  match results with
  | none => []
  | some r =>
    if r.features.length = 0 then []
    else r.features.map fun f =>
      { position := mapMarkersPosition f
        site_name := f.properties.site_name
        rank := f.properties.rank
        lcoh := f.properties.lcoh }

/-- The results section of `ControlPanel.tsx`: when `results` is non-null it
renders "Found {results.features.length} optimal sites". -/
def controlPanelSiteCount (results : Option GeoJSON) : Option ℕ :=
  match results with
  | none => none
  | some r => some r.features.length

/-- The component state of `App.tsx`: `loading`, `error`, `results`. -/
structure AppState where
  loading : Bool
  error : Option String
  results : Option GeoJSON
deriving DecidableEq

/-- The possible outcomes of the `fetch` in `handleRunOptimization`: the promise
rejects, the response arrives with `!response.ok`, or it arrives ok with a JSON
body. -/
inductive FetchOutcome where
  | networkError (msg : String)
  | httpError (status : ℕ)
  | success (data : GeoJSON)

/-- `handleRunOptimization` in `App.tsx` as a state transition on the component
state: `setLoading(true); setError(null);` then on success `setResults(data)`, on
any thrown error `setError(message)` (leaving `results` untouched), and in the
`finally` block `setLoading(false)`. The value is the state after the call
completes. -/
def handleRunOptimization (s : AppState) (o : FetchOutcome) : AppState :=
  match o with
  | .success d => { loading := false, error := none, results := some d }
  | .networkError msg => { loading := false, error := some msg, results := s.results }
  | .httpError status =>
      { loading := false
        error := some ("HTTP error! status: " ++ toString status)
        results := s.results }

/-- Substring test on character lists, embedding JavaScript
`String.prototype.includes`. -/
def isSubListOf (p : List Char) (l : List Char) : Bool :=
  match l with
  | [] => p.isEmpty
  | _ :: t => p.isPrefixOf l || isSubListOf p t

/-- `s.includes(pat)` on strings. -/
def strIncludes (s pat : String) : Bool := isSubListOf pat.data s.data

/-- `s.toLowerCase()`. -/
def toLowerStr (s : String) : String := ⟨s.data.map Char.toLower⟩

/-- A map center/zoom pair as returned by `getMapSettings`. -/
structure MapSettings where
  center : ℚ × ℚ
  zoom : ℕ
deriving DecidableEq

/-- The default settings returned by `getMapSettings` when no region branch
matches. -/
def defaultMapSettings : MapSettings := ⟨(20.5937, 78.9629), 4⟩

/-- The region keywords tested by `getMapSettings`, in the order of its
`if`/`else if` chain. -/
def regionKeywords : List String :=
  ["gujarat", "rajasthan", "maharashtra", "karnataka", "tamil", "andhra", "india"]

/-- `getMapSettings` in `App.tsx`: guards on `results && results.metadata &&
results.metadata.optimization_criteria`, lowercases `criteria.region?`, and walks
a fixed chain of case-insensitive substring tests, falling through to the default
center `[20.5937, 78.9629]` with zoom 4. -/
def getMapSettings (results : Option GeoJSON) : MapSettings :=
  match results with
  | none => defaultMapSettings
  | some r =>
    match r.metadata with
    | none => defaultMapSettings
    | some md =>
      match md.optimization_criteria with
      | none => defaultMapSettings
      | some crit =>
        match crit.region with
        | none => defaultMapSettings
        | some reg =>
          let region := toLowerStr reg
          if strIncludes region "gujarat" then ⟨(22.2587, 71.1924), 7⟩
          else if strIncludes region "rajasthan" then ⟨(27.0238, 74.2179), 6⟩
          else if strIncludes region "maharashtra" then ⟨(19.7515, 75.7139), 6⟩
          else if strIncludes region "karnataka" then ⟨(15.3173, 75.7139), 6⟩
          else if strIncludes region "tamil" then ⟨(11.1271, 78.6569), 6⟩
          else if strIncludes region "andhra" then ⟨(15.9129, 79.74), 6⟩
          else if strIncludes region "india" then ⟨(20.5937, 78.9629), 5⟩
          else defaultMapSettings

/-- A candidate site of the optimization pipeline, joining a renewable-potential
record with its computed fields (spec §3, `CandidateSite`). -/
structure CandidateSite where
  site_name : String
  latitude : ℚ
  longitude : ℚ
  renewable_score : ℚ
  infrastructure_proximity_km : ℚ
  production_cost : ℚ
  transport_cost : ℚ
  lcoh : ℚ
  annual_production_tonnes : ℚ
  grid_distance_km : ℚ
deriving DecidableEq

/-- The optimize request criteria (spec §3, `OptimizationRequest`). -/
structure OptimizationRequest where
  region : String
  max_cost : ℚ
  min_production : ℚ
  proximity_to_grid : Bool
deriving DecidableEq

/-- Modelled from the spec: the grid-proximity requirement compares
`grid_distance_km` against "a configured threshold" (§4.5); the concrete value is
a configuration constant, not derived from data (§6). -/
def gridProximityThresholdKm : ℚ := 50

/-- Modelled from the spec: the CostModel combination step (§4.4) —
"production_cost and transport_cost together must reconstruct lcoh exactly
(within tolerance)"; the candidate's `lcoh` is set to their sum. The
production/transport cost terms themselves are configuration-driven inputs here
(backend sources are not in the embedded tree). -/
def applyCostModel (c : CandidateSite) : CandidateSite :=
  { c with lcoh := c.production_cost + c.transport_cost }

/-- Modelled from the spec: the RankingEngine filter (§4.5) — keep a candidate iff
`lcoh <= max_cost` and `annual_production_tonnes >= min_production` and
(`proximity_to_grid` is false or `grid_distance_km` below the threshold). -/
def passesFilters (req : OptimizationRequest) (c : CandidateSite) : Bool :=
  decide (c.lcoh ≤ req.max_cost) &&
    decide (req.min_production ≤ c.annual_production_tonnes) &&
    (!req.proximity_to_grid || decide (c.grid_distance_km < gridProximityThresholdKm))

/-- Modelled from the spec: the RankingEngine order (§4.5) — ascending `lcoh`,
ties broken by descending `renewable_score` (the remaining tie break is the
stability of the sort). -/
def candLE (a b : CandidateSite) : Prop :=
  a.lcoh < b.lcoh ∨ (a.lcoh = b.lcoh ∧ b.renewable_score ≤ a.renewable_score)

instance : DecidableRel candLE := fun a b =>
  inferInstanceAs
    (Decidable (a.lcoh < b.lcoh ∨ (a.lcoh = b.lcoh ∧ b.renewable_score ≤ a.renewable_score)))

instance : IsTotal CandidateSite candLE where
  total a b := by
    rcases lt_trichotomy a.lcoh b.lcoh with h | h | h
    · exact Or.inl (Or.inl h)
    · rcases le_total b.renewable_score a.renewable_score with hs | hs
      · exact Or.inl (Or.inr ⟨h, hs⟩)
      · exact Or.inr (Or.inr ⟨h.symm, hs⟩)
    · exact Or.inr (Or.inl h)

instance : IsTrans CandidateSite candLE where
  trans a b c hab hbc := by
    rcases hab with h1 | ⟨h1, s1⟩
    · rcases hbc with h2 | ⟨h2, _⟩
      · exact Or.inl (h1.trans h2)
      · exact Or.inl (h2 ▸ h1)
    · rcases hbc with h2 | ⟨h2, s2⟩
      · exact Or.inl (h1 ▸ h2)
      · exact Or.inr ⟨h1.trans h2, s2.trans s1⟩

/-- Modelled from the spec: the RankingEngine sort (§4.5), a stable sort by
`candLE`. -/
def sortCandidates (l : List CandidateSite) : List CandidateSite :=
  List.insertionSort candLE l

/-- Modelled from the spec: the RankingEngine (§4.5) — filter, sort, and assign
dense 1-based ranks in output order. -/
def rankCandidates (req : OptimizationRequest) (cs : List CandidateSite) :
    List (ℕ × CandidateSite) :=
  ((sortCandidates (cs.filter (passesFilters req))).enum).map fun p => (p.1 + 1, p.2)

/-- Modelled from the spec: the ResultFormatter (§4.6, §6) — a geospatial point
feature with `coordinates` in `[longitude, latitude]` axis order, carrying
`site_name`, `lcoh`, `production_cost`, `transport_cost`, `rank`,
`infrastructure_proximity_km`, `annual_production_tonnes`, `region`. -/
def formatFeature (region : String) (rank : ℕ) (c : CandidateSite) : GeoJSONFeature :=
  { type := "Feature"
    geometry := { type := "Point", coordinates := (c.longitude, c.latitude) }
    properties :=
      { site_name := c.site_name
        lcoh := c.lcoh
        production_cost := c.production_cost
        transport_cost := c.transport_cost
        rank := rank
        infrastructure_proximity_km := c.infrastructure_proximity_km
        annual_production_tonnes := c.annual_production_tonnes
        region := region } }

/-- Modelled from the spec: the optimize pipeline (§2 control flow) — per-candidate
cost model, then ranking, then formatting into a feature collection whose metadata
echoes the request criteria. -/
def optimizePipeline (req : OptimizationRequest) (records : List CandidateSite) :
    GeoJSON :=
  { type := "FeatureCollection"
    features :=
      (rankCandidates req (records.map applyCostModel)).map fun p =>
        formatFeature req.region p.1 p.2
    metadata := some { optimization_criteria := some { region := some req.region } } }

/-! ## Helper lemmas -/

/-- Any pair in the ranked output has a second component that survived the
request filter. -/
lemma mem_filter_of_mem_rankCandidates {req : OptimizationRequest}
    {cs : List CandidateSite} {p : ℕ × CandidateSite}
    (h : p ∈ rankCandidates req cs) :
    p.2 ∈ cs.filter (passesFilters req) := by
  unfold rankCandidates at h
  obtain ⟨q, hq, heq⟩ := List.mem_map.1 h
  have h2 : q.2 ∈ sortCandidates (cs.filter (passesFilters req)) := by
    have := List.mem_map_of_mem Prod.snd hq
    rwa [List.enum_map_snd] at this
  have hq2 : q.2 = p.2 := by rw [← heq]
  rw [hq2] at h2
  unfold sortCandidates at h2
  rwa [List.mem_insertionSort] at h2

/-- The ranking order implies non-decreasing `lcoh`. -/
lemma candLE_lcoh_le {a b : CandidateSite} (h : candLE a b) : a.lcoh ≤ b.lcoh := by
  rcases h with h | ⟨h, _⟩
  · exact le_of_lt h
  · exact le_of_eq h

/-! ## Claims -/

/-- C1: the claim states that the JSON body POSTed by `handleRunOptimization`
has exactly the fields `region`, `max_cost`, `min_production`,
`proximity_to_grid`. The code serializes the `FormData` object, whose keys are
`region`, `maxLcoh`, `minProduction`, `proximityToGrid` — the body does not
match the request schema documented in the spec and the README (`max_cost` is
never among the keys), for every form state including the initial one. -/
theorem optimize_request_body_keys :
    (serializeFormData initialFormData).map Prod.fst
        = ["region", "maxLcoh", "minProduction", "proximityToGrid"] ∧
      (serializeFormData initialFormData).map Prod.fst ≠ requestSchemaKeys ∧
      "max_cost" ∉ (serializeFormData initialFormData).map Prod.fst := by
  refine ⟨rfl, ?_, ?_⟩ <;> decide

/-- C2: the formatter writes `geometry.coordinates` in `[longitude, latitude]`
axis order, and both map components read a feature's marker position with
latitude = `coordinates[1]` and longitude = `coordinates[0]`, so every marker is
placed at the site's (latitude, longitude). -/
theorem feature_axis_order (region : String) (rank : ℕ) (c : CandidateSite) :
    (formatFeature region rank c).geometry.coordinates = (c.longitude, c.latitude) ∧
      mapViewMarkerPosition (formatFeature region rank c) = (c.latitude, c.longitude) ∧
      mapMarkersPosition (formatFeature region rank c) = (c.latitude, c.longitude) :=
  ⟨rfl, rfl, rfl⟩

/-- C3: every candidate in the ranked output satisfies the request filters:
`lcoh ≤ max_cost`, `annual_production_tonnes ≥ min_production`, and, when
`proximity_to_grid` is requested, `grid_distance_km` is below the configured
threshold. -/
theorem ranked_candidate_satisfies_filters (req : OptimizationRequest)
    (cs : List CandidateSite) (r : ℕ) (c : CandidateSite)
    (h : (r, c) ∈ rankCandidates req cs) :
    c.lcoh ≤ req.max_cost ∧ req.min_production ≤ c.annual_production_tonnes ∧
      (req.proximity_to_grid = true → c.grid_distance_km < gridProximityThresholdKm) := by
  have hf : c ∈ cs.filter (passesFilters req) :=
    mem_filter_of_mem_rankCandidates h
  have hp : passesFilters req c = true := (List.mem_filter.1 hf).2
  simp only [passesFilters, Bool.and_eq_true, decide_eq_true_eq, Bool.or_eq_true,
    Bool.not_eq_true'] at hp
  exact ⟨hp.1.1, hp.1.2, fun hg => hp.2.resolve_left (by simp [hg])⟩

/-- Request used in the C3 witness. -/
def c3req : OptimizationRequest := ⟨"gujarat", 5, 1000, true⟩

/-- Candidate used in the C3 witness. -/
def c3cand : CandidateSite :=
  ⟨"Bhuj Solar Park", 23.242, 69.6669, 4/5, 12, 3, 1, 4, 2000, 10⟩

theorem ranked_candidate_satisfies_filters_witness :
    c3cand.lcoh ≤ c3req.max_cost ∧
      c3req.min_production ≤ c3cand.annual_production_tonnes ∧
      (c3req.proximity_to_grid = true →
        c3cand.grid_distance_km < gridProximityThresholdKm) :=
  ranked_candidate_satisfies_filters c3req [c3cand] 1 c3cand (by
    have hpass : passesFilters c3req c3cand = true := by
      norm_num [passesFilters, c3req, c3cand, gridProximityThresholdKm]
    have hfil : List.filter (passesFilters c3req) [c3cand] = [c3cand] := by
      simp [hpass]
    have hrank : rankCandidates c3req [c3cand] = [(1, c3cand)] := by
      unfold rankCandidates sortCandidates
      rw [hfil]
      rfl
    rw [hrank]
    exact List.mem_singleton.2 rfl)

/-- C4: in every optimize response the feature ranks form the dense sequence
`1..N` (N = number of features), strictly increasing in output order, and `lcoh`
is non-decreasing along that order. -/
theorem response_ranks_dense_and_lcoh_monotone (req : OptimizationRequest)
    (records : List CandidateSite) :
    (optimizePipeline req records).features.map (fun f => f.properties.rank)
        = List.range' 1 (optimizePipeline req records).features.length ∧
      List.Sorted (fun a b => a < b)
        ((optimizePipeline req records).features.map fun f => f.properties.rank) ∧
      List.Sorted (fun a b => a ≤ b)
        ((optimizePipeline req records).features.map fun f => f.properties.lcoh) := by
  set L := sortCandidates ((records.map applyCostModel).filter (passesFilters req)) with hL
  have hfeat : (optimizePipeline req records).features
      = (L.enum.map fun p => (p.1 + 1, p.2)).map fun p =>
          formatFeature req.region p.1 p.2 := rfl
  have hrank : (optimizePipeline req records).features.map (fun f => f.properties.rank)
      = List.range' 1 L.length := by
    rw [hfeat]
    simp only [List.map_map]
    have h1 : ((fun f : GeoJSONFeature => f.properties.rank) ∘
        ((fun p : ℕ × CandidateSite => formatFeature req.region p.1 p.2) ∘
          fun p : ℕ × CandidateSite => (p.1 + 1, p.2)))
        = (fun n : ℕ => n + 1) ∘ Prod.fst := rfl
    rw [h1, ← List.map_map, List.enum_map_fst, List.range'_eq_map_range]
    exact List.map_congr_left fun x _ => Nat.add_comm x 1
  have hlen : (optimizePipeline req records).features.length = L.length := by
    rw [hfeat]
    simp [List.enum_length]
  refine ⟨by rw [hrank, hlen], ?_, ?_⟩
  · rw [hrank]
    exact List.pairwise_lt_range' 1 L.length
  · have hmap : (optimizePipeline req records).features.map (fun f => f.properties.lcoh)
        = L.map fun c => c.lcoh := by
      rw [hfeat]
      simp only [List.map_map]
      have h2 : ((fun f : GeoJSONFeature => f.properties.lcoh) ∘
          ((fun p : ℕ × CandidateSite => formatFeature req.region p.1 p.2) ∘
            fun p : ℕ × CandidateSite => (p.1 + 1, p.2)))
          = (fun c : CandidateSite => c.lcoh) ∘ Prod.snd := rfl
      rw [h2, ← List.map_map, List.enum_map_snd]
    rw [hmap]
    have hs : List.Sorted candLE L := by
      rw [hL]
      exact List.sorted_insertionSort candLE _
    exact List.Pairwise.map _ (fun a b hab => candLE_lcoh_le hab) hs

/-- C5: for every feature of a returned optimize response, the absolute
difference between `lcoh` and `production_cost + transport_cost` is below the
`1e-6` tolerance (the cost model sets `lcoh` to exactly that sum). -/
theorem feature_lcoh_reconstructs_costs (req : OptimizationRequest)
    (records : List CandidateSite) (f : GeoJSONFeature)
    (h : f ∈ (optimizePipeline req records).features) :
    |f.properties.lcoh -
        (f.properties.production_cost + f.properties.transport_cost)|
      < 1 / 1000000 := by
  have h' : f ∈ (rankCandidates req (records.map applyCostModel)).map fun p =>
      formatFeature req.region p.1 p.2 := h
  obtain ⟨p, hp, rfl⟩ := List.mem_map.1 h'
  have hmem : p.2 ∈ (records.map applyCostModel).filter (passesFilters req) :=
    mem_filter_of_mem_rankCandidates hp
  have hin : p.2 ∈ records.map applyCostModel := (List.mem_filter.1 hmem).1
  obtain ⟨c, _, hac⟩ := List.mem_map.1 hin
  have hred : (formatFeature req.region p.1 p.2).properties.lcoh -
      ((formatFeature req.region p.1 p.2).properties.production_cost +
        (formatFeature req.region p.1 p.2).properties.transport_cost)
      = p.2.lcoh - (p.2.production_cost + p.2.transport_cost) := rfl
  rw [hred, ← hac]
  simp [applyCostModel]

/-- Request used in the C5 witness. -/
def c5req : OptimizationRequest := ⟨"rajasthan", 6, 500, false⟩

/-- Record used in the C5 witness. -/
def c5rec : CandidateSite :=
  ⟨"Jaisalmer Wind Farm", 26.9157, 70.9083, 7/10, 20, 13/5, 9/10, 0, 1500, 60⟩

theorem feature_lcoh_reconstructs_costs_witness :
    |(formatFeature c5req.region 1 (applyCostModel c5rec)).properties.lcoh -
        ((formatFeature c5req.region 1 (applyCostModel c5rec)).properties.production_cost +
          (formatFeature c5req.region 1 (applyCostModel c5rec)).properties.transport_cost)|
      < 1 / 1000000 :=
  feature_lcoh_reconstructs_costs c5req [c5rec] _ (by
    have hpass : passesFilters c5req (applyCostModel c5rec) = true := by
      norm_num [passesFilters, applyCostModel, c5req, c5rec, gridProximityThresholdKm]
    have hfil : List.filter (passesFilters c5req) ([c5rec].map applyCostModel)
        = [applyCostModel c5rec] := by
      simp [hpass]
    have hfeat : (optimizePipeline c5req [c5rec]).features
        = [formatFeature c5req.region 1 (applyCostModel c5rec)] := by
      show ((rankCandidates c5req ([c5rec].map applyCostModel)).map fun p =>
          formatFeature c5req.region p.1 p.2) = _
      unfold rankCandidates sortCandidates
      rw [hfil]
      rfl
    rw [hfeat]
    exact List.mem_singleton.2 rfl)

/-- C6: when the filters eliminate every candidate the pipeline returns an empty
feature list (it is a total function, not an error path), `MapMarkers` renders no
markers, and the control-panel summary reports zero sites. -/
theorem empty_filter_gives_empty_render (req : OptimizationRequest)
    (records : List CandidateSite)
    (h : ∀ c ∈ records.map applyCostModel, passesFilters req c = false) :
    (optimizePipeline req records).features = [] ∧
      mapMarkersRender (some (optimizePipeline req records)) = [] ∧
      controlPanelSiteCount (some (optimizePipeline req records)) = some 0 := by
  have hfil : (records.map applyCostModel).filter (passesFilters req) = [] := by
    rw [List.filter_eq_nil_iff]
    intro a ha
    simp [h a ha]
  have hempty : rankCandidates req (records.map applyCostModel) = [] := by
    unfold rankCandidates sortCandidates
    rw [hfil]
    rfl
  have hfeat : (optimizePipeline req records).features = [] := by
    show ((rankCandidates req (records.map applyCostModel)).map fun p =>
        formatFeature req.region p.1 p.2) = []
    rw [hempty]
    rfl
  refine ⟨hfeat, ?_, ?_⟩
  · simp [mapMarkersRender, hfeat]
  · simp [controlPanelSiteCount, hfeat]

/-- Request used in the C6 witness. -/
def c6req : OptimizationRequest := ⟨"karnataka", 5, 1000, true⟩

/-- Record used in the C6 witness (fails all three filters after the cost
model: lcoh 9 > 5, production 800 < 1000, grid distance 70 ≥ 50). -/
def c6rec : CandidateSite :=
  ⟨"Mangalore Port", 12.9141, 74.856, 1/2, 5, 6, 3, 0, 800, 70⟩

theorem empty_filter_gives_empty_render_witness :
    (optimizePipeline c6req [c6rec]).features = [] ∧
      mapMarkersRender (some (optimizePipeline c6req [c6rec])) = [] ∧
      controlPanelSiteCount (some (optimizePipeline c6req [c6rec])) = some 0 :=
  empty_filter_gives_empty_render c6req [c6rec] (by
    intro c hc
    simp only [List.map_cons, List.map_nil, List.mem_singleton] at hc
    subst hc
    norm_num [passesFilters, applyCostModel, c6req, c6rec, gridProximityThresholdKm])

/-- C7 is false on the code: the control panel's initial state has
`region = ""`, and `handleSubmit` passes the form data to the optimization run
without any validation, so a request can be submitted whose region is not in
the supported enumerated set. -/
theorem control_panel_can_submit_empty_region :
    ReachableForm initialFormData ∧ (handleSubmit initialFormData).region = "" ∧
      "" ∉ supportedRegions :=
  ⟨ReachableForm.init, rfl, by decide⟩

/-- C7 amended: every region value the control panel can submit is one of the
dropdown option values — a set that contains the empty placeholder `""` and the
regions namibia, chile, australia outside the supported enumerated set;
membership in the supported set is not guaranteed. -/
theorem control_panel_region_in_option_values (fd : FormData)
    (h : ReachableForm fd) : (handleSubmit fd).region ∈ regionOptionValues := by
  induction h with
  | init => decide
  | setRegion fd v hfd hv ih => exact hv
  | setMaxLcoh fd v hfd ih => exact ih
  | setMinProduction fd v hfd ih => exact ih
  | setProximityToGrid fd b hfd ih => exact ih

theorem control_panel_region_in_option_values_witness :
    (handleSubmit initialFormData).region ∈ regionOptionValues :=
  control_panel_region_in_option_values initialFormData ReachableForm.init

/-- C8: the ranking computation is a deterministic pure function of the
reference snapshot and the request criteria — two identical requests evaluated
against the same snapshot produce identical responses (the embedding has no
shared mutable state by construction). -/
theorem optimize_deterministic (req₁ req₂ : OptimizationRequest)
    (snap₁ snap₂ : List CandidateSite) (hreq : req₁ = req₂)
    (hsnap : snap₁ = snap₂) :
    optimizePipeline req₁ snap₁ = optimizePipeline req₂ snap₂ := by
  rw [hreq, hsnap]

theorem optimize_deterministic_witness :
    optimizePipeline ⟨"gujarat", 5, 1000, true⟩ [c3cand]
      = optimizePipeline ⟨"gujarat", 5, 1000, true⟩ [c3cand] :=
  optimize_deterministic _ _ _ _ rfl rfl

/-- C9: `handleRunOptimization` ends with `loading = false` on every path, and
on both failure paths (fetch rejection, non-ok HTTP status) it stores an error
message while leaving the previously stored results unchanged. -/
theorem handleRunOptimization_failure_behavior (s : AppState) (o : FetchOutcome) :
    (handleRunOptimization s o).loading = false ∧
      (∀ msg, o = FetchOutcome.networkError msg →
        (handleRunOptimization s o).results = s.results ∧
          (handleRunOptimization s o).error = some msg) ∧
      (∀ status, o = FetchOutcome.httpError status →
        (handleRunOptimization s o).results = s.results ∧
          (handleRunOptimization s o).error
            = some ("HTTP error! status: " ++ toString status)) := by
  refine ⟨?_, ?_, ?_⟩
  · cases o <;> rfl
  · rintro msg rfl
    exact ⟨rfl, rfl⟩
  · rintro status rfl
    exact ⟨rfl, rfl⟩

theorem handleRunOptimization_failure_behavior_witness :
    (handleRunOptimization ⟨true, none, none⟩
        (FetchOutcome.networkError "Failed to fetch")).loading = false ∧
      (handleRunOptimization ⟨true, none, none⟩
          (FetchOutcome.networkError "Failed to fetch")).results
        = (⟨true, none, none⟩ : AppState).results ∧
      (handleRunOptimization ⟨true, none, none⟩
          (FetchOutcome.networkError "Failed to fetch")).error
        = some "Failed to fetch" := by
  have h := handleRunOptimization_failure_behavior ⟨true, none, none⟩
    (FetchOutcome.networkError "Failed to fetch")
  exact ⟨h.1, (h.2.1 "Failed to fetch" rfl).1, (h.2.1 "Failed to fetch" rfl).2⟩

/-- C10: `getMapSettings` is total and deterministic over the results value:
null results, absent metadata/criteria/region, and unmatched regions all yield
the default center `[20.5937, 78.9629]` with zoom 4; matching is
case-insensitive substring inclusion in the fixed order gujarat, rajasthan,
maharashtra, karnataka, tamil, andhra, india (the uppercase "GUJARAT" matches,
and "rajasthan gujarat" takes the gujarat branch tested first). -/
theorem getMapSettings_default_and_matching (g : GeoJSON) (reg : String) :
    getMapSettings none = defaultMapSettings ∧
      (g.metadata = none → getMapSettings (some g) = defaultMapSettings) ∧
      (g.metadata = some ⟨none⟩ → getMapSettings (some g) = defaultMapSettings) ∧
      (g.metadata = some ⟨some ⟨none⟩⟩ →
        getMapSettings (some g) = defaultMapSettings) ∧
      (g.metadata = some ⟨some ⟨some reg⟩⟩ →
        (∀ pat ∈ regionKeywords, strIncludes (toLowerStr reg) pat = false) →
        getMapSettings (some g) = defaultMapSettings) ∧
      getMapSettings
          (some ⟨"FeatureCollection", [], some ⟨some ⟨some "GUJARAT"⟩⟩⟩)
        = ⟨(22.2587, 71.1924), 7⟩ ∧
      getMapSettings
          (some ⟨"FeatureCollection", [], some ⟨some ⟨some "rajasthan gujarat"⟩⟩⟩)
        = ⟨(22.2587, 71.1924), 7⟩ := by
  refine ⟨rfl, ?_, ?_, ?_, ?_, rfl, rfl⟩
  · intro h
    obtain ⟨t, fs, md⟩ := g
    have h' : md = none := h
    subst h'
    rfl
  · intro h
    obtain ⟨t, fs, md⟩ := g
    have h' : md = some ⟨none⟩ := h
    subst h'
    rfl
  · intro h
    obtain ⟨t, fs, md⟩ := g
    have h' : md = some ⟨some ⟨none⟩⟩ := h
    subst h'
    rfl
  · intro h hno
    obtain ⟨t, fs, md⟩ := g
    have h' : md = some ⟨some ⟨some reg⟩⟩ := h
    subst h'
    have h1 := hno "gujarat" (by decide)
    have h2 := hno "rajasthan" (by decide)
    have h3 := hno "maharashtra" (by decide)
    have h4 := hno "karnataka" (by decide)
    have h5 := hno "tamil" (by decide)
    have h6 := hno "andhra" (by decide)
    have h7 := hno "india" (by decide)
    simp [getMapSettings, h1, h2, h3, h4, h5, h6, h7]

theorem getMapSettings_default_and_matching_witness :
    getMapSettings
        (some ⟨"FeatureCollection", [], some ⟨some ⟨some "namibia"⟩⟩⟩)
      = defaultMapSettings :=
  (getMapSettings_default_and_matching
      ⟨"FeatureCollection", [], some ⟨some ⟨some "namibia"⟩⟩⟩
      "namibia").2.2.2.2.1 rfl (by decide)

end GreenH2
